import Mathlib

/-!
Verification development for the DoubleExpiry repository: a shallow embedding
of the decision engine (`src/src/utils/helpers.py`, `src/src/models/options_model.py`,
`src/src/utils/validation.py`) and the market-data provider
(`src/src/utils/ibkr_client.py`), with theorems settling the specification claims.
Python floats are embedded as rationals; Python dicts of statuses as insertion-ordered
association lists; fallible operations as `Option`/`Except`.
-/

namespace DoubleExpiry

/-- Traffic-light status labels, the three-valued enumeration used by every rule. -/
inductive Status where
  | GREEN
  | YELLOW
  | RED
  deriving DecidableEq, BEq, Repr

/-- Embeds `traffic` (src/src/utils/helpers.py lines 22-39): returns GREEN if the
green predicate holds, else YELLOW if the yellow predicate holds, else RED. -/
def traffic {α : Type} (value : α) (green_fn yellow_fn : α → Bool) : Status :=
  if green_fn value then Status.GREEN
  else if yellow_fn value then Status.YELLOW
  else Status.RED

/-- The score map used by `final_decision`: GREEN=2, YELLOW=1, RED=0. -/
def score_map : Status → ℤ
  | Status.GREEN => 2
  | Status.YELLOW => 1
  | Status.RED => 0

/-- Embeds `final_decision` (src/src/utils/helpers.py lines 41-61). The Python dict
of statuses is embedded as an insertion-ordered association list; only its values
and length are used, exactly as in the source. -/
def final_decision (statuses : List (String × Status)) : String :=
  let vals := statuses.map Prod.snd
  let score : ℤ := (vals.map score_map).sum
  let reds : ℤ := ((vals.filter (fun s => decide (s = Status.RED))).length : ℤ)
  let n : ℤ := (statuses.length : ℤ)
  if score = 2 * n ∧ reds = 0 then "ENTER (All green) ✅"
  else if 2 * (n - 1) ≤ score ∧ reds = 0 then "ENTER — CAUTION ⚠️"
  else "WAIT ❌"

/-- Number of YELLOW entries in a list of status values. -/
def yellowCount (vals : List Status) : ℕ :=
  (vals.filter (fun s => decide (s = Status.YELLOW))).length

/-- Number of RED entries in a list of status values. -/
def redCount (vals : List Status) : ℕ :=
  (vals.filter (fun s => decide (s = Status.RED))).length

/-- Aggregate-score invariant: score + yellows + 2·reds = 2·(number of rules). -/
lemma score_add_counts (vals : List Status) :
    (vals.map score_map).sum + (yellowCount vals : ℤ) + 2 * (redCount vals : ℤ) =
      2 * (vals.length : ℤ) := by
  induction vals with
  | nil => simp [yellowCount, redCount]
  | cons s rest ih =>
    cases s <;>
      simp [yellowCount, redCount, List.filter_cons, score_map] at * <;>
      omega

/-- If some rule's value is RED, the RED count is positive. -/
lemma redCount_pos_of_mem {vals : List Status} (h : Status.RED ∈ vals) :
    0 < redCount vals := by
  unfold redCount
  rw [List.length_pos]
  intro hempty
  have : Status.RED ∈ List.filter (fun s => decide (s = Status.RED)) vals :=
    List.mem_filter.mpr ⟨h, by decide⟩
  rw [hempty] at this
  exact List.not_mem_nil _ this

/-- Unfolding equation for `final_decision` in terms of the counting helpers. -/
lemma final_decision_eq (statuses : List (String × Status)) :
    final_decision statuses =
      (if ((statuses.map Prod.snd).map score_map).sum = 2 * (statuses.length : ℤ) ∧
          (redCount (statuses.map Prod.snd) : ℤ) = 0 then "ENTER (All green) ✅"
       else if 2 * ((statuses.length : ℤ) - 1) ≤ ((statuses.map Prod.snd).map score_map).sum ∧
          (redCount (statuses.map Prod.snd) : ℤ) = 0 then "ENTER — CAUTION ⚠️"
       else "WAIT ❌") := by
  rfl

/-- The input record supplied to `OptionsModel` (src/src/models/options_model.py):
the fields read by `compute_metrics`, `evaluate_status_lights`,
`get_strategy_suggestions` and `validate_inputs`. Python floats are embedded as
rationals. -/
structure Inputs where
  price : ℚ
  put_strike : ℚ
  call_strike : ℚ
  front_put_iv : ℚ
  front_call_iv : ℚ
  back_put_iv : ℚ
  back_call_iv : ℚ
  iv_rank_pct : ℚ
  days_to_event : ℚ
  vix_value : ℚ
  atr_points : ℚ
  use_atr : Bool
  deriving DecidableEq, Repr

/-- The metrics dictionary built by `OptionsModel.compute_metrics`
(src/src/models/options_model.py lines 40-91). -/
structure Metrics where
  midpoint : ℚ
  dist_from_mid : ℚ
  strike_width : ℚ
  front_avg_iv : ℚ
  back_avg_iv : ℚ
  term_gap_pts : ℚ
  iv_rank : ℚ
  atr_ok : Bool
  use_atr : Bool
  atr_points : ℚ
  deriving DecidableEq, Repr

/-- Embeds `OptionsModel.compute_metrics` (src/src/models/options_model.py lines 40-91).
The Python guard `if midpoint` is numeric truthiness: midpoint nonzero. -/
def compute_metrics (i : Inputs) : Metrics :=
  let midpoint := (i.put_strike + i.call_strike) / 2
  let dist_from_mid := if midpoint ≠ 0 then |i.price - midpoint| / midpoint else 1
  let strike_width := |i.call_strike - i.put_strike|
  let front_avg_iv := (i.front_put_iv + i.front_call_iv) / 2
  let back_avg_iv := (i.back_put_iv + i.back_call_iv) / 2
  let term_gap_pts := front_avg_iv - back_avg_iv
  let iv_rank := i.iv_rank_pct / 100
  let atr_ok := decide (i.atr_points ≤ max (1 / 1000000000) (strike_width / 2))
  { midpoint := midpoint
    dist_from_mid := dist_from_mid
    strike_width := strike_width
    front_avg_iv := front_avg_iv
    back_avg_iv := back_avg_iv
    term_gap_pts := term_gap_pts
    iv_rank := iv_rank
    atr_ok := atr_ok
    use_atr := i.use_atr
    atr_points := i.atr_points }

/-- Embeds `OptionsModel.evaluate_status_lights` (src/src/models/options_model.py
lines 93-149): the five base rules in fixed insertion order, with the ATR guardrail
appended last only when `use_atr` is set. The guardrail's yellow predicate is the
constant false, as in the source. -/
def evaluate_status_lights (i : Inputs) : List (String × Status) :=
  let m := compute_metrics i
  [("Price Location", traffic m.dist_from_mid
      (fun x => decide (x ≤ 1/100)) (fun x => decide (x ≤ 2/100))),
   ("Term Structure", traffic m.term_gap_pts
      (fun x => decide (2 ≤ x)) (fun x => decide (1 ≤ x))),
   ("IV Rank", traffic m.iv_rank
      (fun x => decide (3/10 ≤ x ∧ x ≤ 5/10))
      (fun x => decide ((2/10 ≤ x ∧ x < 3/10) ∨ (5/10 < x ∧ x ≤ 6/10)))),
   ("Event Proximity", traffic i.days_to_event
      (fun x => decide (3 ≤ x ∧ x ≤ 7)) (fun x => decide (1 ≤ x ∧ x ≤ 2))),
   ("VIX", traffic i.vix_value
      (fun x => decide (14 ≤ x ∧ x ≤ 20)) (fun x => decide (20 < x ∧ x ≤ 25)))] ++
  (if i.use_atr then
    [("ATR Guardrail", traffic m.atr_ok (fun ok => ok == true) (fun _ => false))]
   else [])

/-- The first suggestion rule's condition (src/src/models/options_model.py lines
181-183): IV Rank GREEN, Term Structure GREEN or YELLOW, Price Location not RED.
`dict.get` on a missing key gives None, embedded as `List.lookup` returning `none`. -/
def calendar_condition (i : Inputs) : Prop :=
  (evaluate_status_lights i).lookup "IV Rank" = some Status.GREEN ∧
  ((evaluate_status_lights i).lookup "Term Structure" = some Status.GREEN ∨
   (evaluate_status_lights i).lookup "Term Structure" = some Status.YELLOW) ∧
  (evaluate_status_lights i).lookup "Price Location" ≠ some Status.RED

/-- The second suggestion rule's condition (src/src/models/options_model.py line 186):
normalized IV rank below 0.25 and Price Location GREEN. -/
def vertical_condition (i : Inputs) : Prop :=
  (compute_metrics i).iv_rank < 25/100 ∧
  (evaluate_status_lights i).lookup "Price Location" = some Status.GREEN

/-- The third suggestion rule's condition (src/src/models/options_model.py lines
189-191): normalized IV rank in (0.45, 0.60], VIX at least 18, Price Location GREEN. -/
def condor_condition (i : Inputs) : Prop :=
  (45/100 < (compute_metrics i).iv_rank ∧ (compute_metrics i).iv_rank ≤ 60/100) ∧
  18 ≤ i.vix_value ∧
  (evaluate_status_lights i).lookup "Price Location" = some Status.GREEN

instance (i : Inputs) : Decidable (calendar_condition i) := by
  unfold calendar_condition; infer_instance

instance (i : Inputs) : Decidable (vertical_condition i) := by
  unfold vertical_condition; infer_instance

instance (i : Inputs) : Decidable (condor_condition i) := by
  unfold condor_condition; infer_instance

/-- Embeds `OptionsModel.get_strategy_suggestions` (src/src/models/options_model.py
lines 163-197): three independent rules checked in declaration order, each appending
at most one suggestion; a sentinel when none fire. The sentinel string reproduces the
source file's exact bytes. -/
def get_strategy_suggestions (i : Inputs) : List String :=
  let s1 : List String :=
    if calendar_condition i then ["Double Calendar (front week vs back week)"] else []
  let s2 : List String :=
    if vertical_condition i then ["Cheaper OTM Vertical (directional)"] else []
  let s3 : List String :=
    if condor_condition i then ["Short-duration Iron Condor (range)"] else []
  let suggestions := s1 ++ s2 ++ s3
  if suggestions.isEmpty then
    ["No trade â€” wait for better IV/term structure or re-center strikes"]
  else suggestions

/-- Embeds `validate_positive` (src/src/utils/validation.py lines 9-22). -/
def validate_positive (value : ℚ) (name : String) : Except String ℚ :=
  if value ≤ 0 then Except.error (name ++ " must be greater than zero")
  else Except.ok value

/-- The max-bound half of `validate_range` (src/src/utils/validation.py lines 39-41). -/
def range_max_check (value : ℚ) (name : String) (max_val : Option ℚ) : Except String ℚ :=
  match max_val with
  | some m =>
    if m < value then Except.error (name ++ " must be at most " ++ toString m)
    else Except.ok value
  | none => Except.ok value

/-- Embeds `validate_range` (src/src/utils/validation.py lines 24-41): the min bound
is checked first, then the max bound; a `none` bound is skipped. -/
def validate_range (value : ℚ) (name : String) (min_val : Option ℚ) (max_val : Option ℚ) :
    Except String ℚ :=
  match min_val with
  | some m =>
    if value < m then Except.error (name ++ " must be at least " ++ toString m)
    else range_max_check value name max_val
  | none => range_max_check value name max_val

/-- Embeds `validate_strikes` (src/src/utils/validation.py lines 43-56): rejects
put strike greater than or equal to call strike. -/
def validate_strikes (put_strike call_strike : ℚ) : Except String Bool :=
  if put_strike ≥ call_strike then
    Except.error "Put strike should be less than call strike for typical strategies"
  else Except.ok true

/-- Embeds `validate_inputs` (src/src/utils/validation.py lines 58-94): the checks
in source order, failing fast on the first violation; the ATR positivity check runs
only when `use_atr` is set. -/
def validate_inputs (inputs : Inputs) : Except String Inputs := do
  let _ ← validate_positive inputs.price "Price"
  let _ ← validate_positive inputs.put_strike "Put strike"
  let _ ← validate_positive inputs.call_strike "Call strike"
  let _ ← validate_strikes inputs.put_strike inputs.call_strike
  let _ ← validate_range inputs.front_put_iv "Front-week PUT IV" (some 0) none
  let _ ← validate_range inputs.front_call_iv "Front-week CALL IV" (some 0) none
  let _ ← validate_range inputs.back_put_iv "Back-week PUT IV" (some 0) none
  let _ ← validate_range inputs.back_call_iv "Back-week CALL IV" (some 0) none
  let _ ← validate_range inputs.iv_rank_pct "IV Rank" (some 0) (some 100)
  let _ ← validate_range inputs.days_to_event "Days to event" (some 0) none
  let _ ← validate_positive inputs.vix_value "VIX value"
  let _ ← if inputs.use_atr then validate_positive inputs.atr_points "ATR points"
          else pure 0
  return inputs

/-- A concrete valid input record (the spec's Scenario A values). -/
def baseInputs : Inputs :=
  { price := 635
    put_strike := 625
    call_strike := 645
    front_put_iv := 22
    front_call_iv := 22
    back_put_iv := 19
    back_call_iv := 19
    iv_rank_pct := 40
    days_to_event := 5
    vix_value := 17
    atr_points := 4
    use_atr := false }

/-- Aggregate score of a status mapping: sum of per-rule scores (GREEN=2, YELLOW=1, RED=0). -/
def decision_score (statuses : List (String × Status)) : ℤ :=
  ((statuses.map Prod.snd).map score_map).sum

/-- Any RED in the status values forces `final_decision` to return the wait label. -/
lemma final_decision_wait_of_red (statuses : List (String × Status))
    (h : Status.RED ∈ statuses.map Prod.snd) :
    final_decision statuses = "WAIT ❌" := by
  have hpos := redCount_pos_of_mem h
  rw [final_decision_eq, if_neg, if_neg] <;> rintro ⟨-, h0⟩ <;> omega

/-- C3: for every status mapping, whenever at least one rule's status is RED,
`final_decision` returns the wait label, regardless of the aggregate score; hence
replacing any single rule's status by RED (holding the others fixed) always yields
the wait label and can never produce a more permissive decision. -/
theorem red_forces_wait (statuses : List (String × Status)) :
    (Status.RED ∈ statuses.map Prod.snd → final_decision statuses = "WAIT ❌") ∧
    (∀ (j : ℕ), j < statuses.length → ∀ (name : String),
      final_decision (statuses.set j (name, Status.RED)) = "WAIT ❌") := by
  constructor
  · exact final_decision_wait_of_red statuses
  · intro j hj name
    apply final_decision_wait_of_red
    have hj' : j < (statuses.set j (name, Status.RED)).length := by
      simpa using hj
    have hget : (statuses.set j (name, Status.RED)).get ⟨j, hj'⟩ = (name, Status.RED) := by
      simp
    have hmem : (name, Status.RED) ∈ statuses.set j (name, Status.RED) := by
      have hm := List.get_mem (statuses.set j (name, Status.RED)) j hj'
      rwa [hget] at hm
    exact List.mem_map.mpr ⟨(name, Status.RED), hmem, rfl⟩

/-- Witness for C3: a concrete mapping with one RED decides to wait, and setting
a GREEN rule to RED in an all-GREEN mapping also decides to wait. -/
theorem red_forces_wait_witness :
    final_decision [("VIX", Status.RED), ("IV Rank", Status.GREEN)] = "WAIT ❌" ∧
    final_decision ([("VIX", Status.GREEN), ("IV Rank", Status.GREEN)].set 0
      ("VIX", Status.RED)) = "WAIT ❌" :=
  ⟨(red_forces_wait [("VIX", Status.RED), ("IV Rank", Status.GREEN)]).1 (by simp),
   (red_forces_wait [("VIX", Status.GREEN), ("IV Rank", Status.GREEN)]).2 0 (by decide) "VIX"⟩

/-- C10: applied to an empty status mapping, `final_decision` returns the
full-entry label (n = 0, score = 0 = 2n, reds = 0), so a caller that aggregates
before any rule has been evaluated receives the most permissive decision. -/
theorem final_decision_empty : final_decision [] = "ENTER (All green) ✅" := by
  decide

/-- C1 counterexample: a two-rule mapping with two YELLOWs and no RED satisfies
2(n−1) ≤ score < 2n and `final_decision` returns the cautious-entry label, yet the
number of YELLOW rules is 2, not 1 — refuting "this case holds exactly when one
rule is YELLOW and all remaining rules are GREEN". -/
theorem caution_two_yellows_counterexample :
    redCount ([("Term Structure", Status.YELLOW), ("VIX", Status.YELLOW)].map Prod.snd) = 0 ∧
    2 * ((2 : ℤ) - 1) ≤ decision_score [("Term Structure", Status.YELLOW), ("VIX", Status.YELLOW)] ∧
    decision_score [("Term Structure", Status.YELLOW), ("VIX", Status.YELLOW)] < 2 * (2 : ℤ) ∧
    final_decision [("Term Structure", Status.YELLOW), ("VIX", Status.YELLOW)] =
      "ENTER — CAUTION ⚠️" ∧
    yellowCount ([("Term Structure", Status.YELLOW), ("VIX", Status.YELLOW)].map Prod.snd) = 2 := by
  decide

/-- C1 (amended): with no RED rule, the band 2(n−1) ≤ score < 2n makes
`final_decision` return the cautious-entry label, and the band holds exactly when
the number of YELLOW rules is one or two (all remaining rules GREEN). -/
theorem caution_band_characterization (statuses : List (String × Status))
    (hred : redCount (statuses.map Prod.snd) = 0) :
    ((2 * ((statuses.length : ℤ) - 1) ≤ decision_score statuses ∧
        decision_score statuses < 2 * (statuses.length : ℤ)) ↔
      (yellowCount (statuses.map Prod.snd) = 1 ∨ yellowCount (statuses.map Prod.snd) = 2)) ∧
    ((2 * ((statuses.length : ℤ) - 1) ≤ decision_score statuses ∧
        decision_score statuses < 2 * (statuses.length : ℤ)) →
      final_decision statuses = "ENTER — CAUTION ⚠️") := by
  have hinv := score_add_counts (statuses.map Prod.snd)
  rw [List.length_map] at hinv
  unfold decision_score
  constructor
  · constructor
    · rintro ⟨h1, h2⟩
      omega
    · rintro (h | h) <;> rw [h] at hinv <;> omega
  · rintro ⟨h1, h2⟩
    rw [final_decision_eq, if_neg, if_pos]
    · exact ⟨h1, by omega⟩
    · rintro ⟨he, -⟩
      omega

/-- Witness for C1 (amended): a concrete five-rule mapping with exactly one YELLOW
and no RED lies in the cautious band and decides to cautious entry. -/
theorem caution_band_characterization_witness :
    final_decision [("Price Location", Status.GREEN), ("Term Structure", Status.GREEN),
      ("IV Rank", Status.GREEN), ("Event Proximity", Status.YELLOW), ("VIX", Status.GREEN)] =
      "ENTER — CAUTION ⚠️" :=
  (caution_band_characterization
    [("Price Location", Status.GREEN), ("Term Structure", Status.GREEN),
      ("IV Rank", Status.GREEN), ("Event Proximity", Status.YELLOW), ("VIX", Status.GREEN)]
    (by decide)).2 ⟨by decide, by decide⟩

/-- C5: for every validated record, `evaluate_status_lights` returns exactly 5 entries
when the ATR flag is false and 6 when it is true, with keys in the fixed order
Price Location, Term Structure, IV Rank, Event Proximity, VIX (then ATR Guardrail),
and every value one of GREEN, YELLOW, RED. -/
theorem evaluate_status_lights_shape (i : Inputs) (h : validate_inputs i = Except.ok i) :
    ((evaluate_status_lights i).length = if i.use_atr then 6 else 5) ∧
    ((evaluate_status_lights i).map Prod.fst =
      if i.use_atr then
        ["Price Location", "Term Structure", "IV Rank", "Event Proximity", "VIX",
         "ATR Guardrail"]
      else
        ["Price Location", "Term Structure", "IV Rank", "Event Proximity", "VIX"]) ∧
    (∀ p ∈ evaluate_status_lights i,
      p.2 = Status.GREEN ∨ p.2 = Status.YELLOW ∨ p.2 = Status.RED) := by
  refine ⟨?_, ?_, ?_⟩
  · cases hu : i.use_atr <;> simp [evaluate_status_lights, hu]
  · cases hu : i.use_atr <;> simp [evaluate_status_lights, hu]
  · intro p _
    cases p.2 <;> simp

/-- Witness for C5: the concrete valid record yields 5 statuses without the ATR flag
and 6 with it. -/
theorem evaluate_status_lights_shape_witness :
    (evaluate_status_lights baseInputs).length = 5 ∧
    (evaluate_status_lights { baseInputs with use_atr := true }).length = 6 := by
  constructor
  · have h := (evaluate_status_lights_shape baseInputs (by
      norm_num [validate_inputs, baseInputs, validate_positive, validate_strikes,
        validate_range, range_max_check, bind, Except.bind, pure, Except.pure])).1
    simpa [baseInputs] using h
  · have h := (evaluate_status_lights_shape { baseInputs with use_atr := true } (by
      norm_num [validate_inputs, baseInputs, validate_positive, validate_strikes,
        validate_range, range_max_check, bind, Except.bind, pure, Except.pure])).1
    simpa [baseInputs] using h

/-- C4: for a validated record, a computed distance fraction of exactly 0.01 makes
the Price Location rule GREEN; 0.010001 makes it YELLOW; 0.02 makes it YELLOW;
0.020001 makes it RED. -/
theorem price_location_boundary (i : Inputs) (hv : validate_inputs i = Except.ok i) :
    ((compute_metrics i).dist_from_mid = 1/100 →
      (evaluate_status_lights i).lookup "Price Location" = some Status.GREEN) ∧
    ((compute_metrics i).dist_from_mid = 10001/1000000 →
      (evaluate_status_lights i).lookup "Price Location" = some Status.YELLOW) ∧
    ((compute_metrics i).dist_from_mid = 2/100 →
      (evaluate_status_lights i).lookup "Price Location" = some Status.YELLOW) ∧
    ((compute_metrics i).dist_from_mid = 20001/1000000 →
      (evaluate_status_lights i).lookup "Price Location" = some Status.RED) := by
  refine ⟨?_, ?_, ?_, ?_⟩ <;> intro h <;>
    norm_num [evaluate_status_lights, List.lookup, traffic, h]

/-- Witness for C4: four concrete validated records (strikes 50/150, so midpoint 100)
whose prices put the distance fraction exactly at each boundary. -/
theorem price_location_boundary_witness :
    (evaluate_status_lights
      { baseInputs with put_strike := 50, call_strike := 150, price := 101 }).lookup
      "Price Location" = some Status.GREEN ∧
    (evaluate_status_lights
      { baseInputs with put_strike := 50, call_strike := 150, price := 1010001/10000 }).lookup
      "Price Location" = some Status.YELLOW ∧
    (evaluate_status_lights
      { baseInputs with put_strike := 50, call_strike := 150, price := 102 }).lookup
      "Price Location" = some Status.YELLOW ∧
    (evaluate_status_lights
      { baseInputs with put_strike := 50, call_strike := 150, price := 1020001/10000 }).lookup
      "Price Location" = some Status.RED := by
  refine ⟨(price_location_boundary _ ?_).1 ?_, (price_location_boundary _ ?_).2.1 ?_,
          (price_location_boundary _ ?_).2.2.1 ?_, (price_location_boundary _ ?_).2.2.2 ?_⟩ <;>
    norm_num [validate_inputs, baseInputs, validate_positive, validate_strikes,
      validate_range, range_max_check, bind, Except.bind, pure, Except.pure,
      compute_metrics, abs_of_nonneg]

/-- C7: with the preceding positivity checks satisfied, `validate_inputs` rejects a
record whose put strike is greater than or equal to the call strike with the strike
message, and `validate_strikes` passes whenever the put strike is strictly below the
call strike. -/
theorem strike_relationship (i : Inputs) (hp : 0 < i.price) (hput : 0 < i.put_strike)
    (hcall : 0 < i.call_strike) :
    (i.call_strike ≤ i.put_strike →
      validate_inputs i =
        Except.error "Put strike should be less than call strike for typical strategies") ∧
    (i.put_strike < i.call_strike →
      validate_strikes i.put_strike i.call_strike = Except.ok true) := by
  constructor
  · intro hle
    have h1 : ¬ i.price ≤ 0 := not_le.mpr hp
    have h2 : ¬ i.put_strike ≤ 0 := not_le.mpr hput
    have h3 : ¬ i.call_strike ≤ 0 := not_le.mpr hcall
    simp [validate_inputs, validate_positive, validate_strikes, bind, Except.bind,
      h1, h2, h3, ge_iff_le, hle]
  · intro hlt
    simp [validate_strikes, ge_iff_le, not_le.mpr hlt]

/-- Witness for C7: equal strikes are rejected, put above call is rejected, and
put strictly below call passes the strike check. -/
theorem strike_relationship_witness :
    validate_inputs { baseInputs with put_strike := 640, call_strike := 640 } =
      Except.error "Put strike should be less than call strike for typical strategies" ∧
    validate_inputs { baseInputs with put_strike := 650, call_strike := 640 } =
      Except.error "Put strike should be less than call strike for typical strategies" ∧
    validate_strikes 625 645 = Except.ok true := by
  refine ⟨(strike_relationship _ ?_ ?_ ?_).1 ?_, (strike_relationship _ ?_ ?_ ?_).1 ?_,
          (strike_relationship baseInputs ?_ ?_ ?_).2 ?_⟩ <;>
    norm_num [baseInputs]

/-- C8: `get_strategy_suggestions` always returns a non-empty list; it is the
one-element sentinel list exactly when none of the three rule conditions holds, and
when at least one holds it is the concatenation, in declaration order, of at most one
suggestion per rule. -/
theorem get_strategy_suggestions_spec (i : Inputs) :
    get_strategy_suggestions i ≠ [] ∧
    ((¬ calendar_condition i ∧ ¬ vertical_condition i ∧ ¬ condor_condition i) ↔
      get_strategy_suggestions i =
        ["No trade â€” wait for better IV/term structure or re-center strikes"]) ∧
    (calendar_condition i ∨ vertical_condition i ∨ condor_condition i →
      get_strategy_suggestions i =
        (if calendar_condition i then ["Double Calendar (front week vs back week)"] else []) ++
        (if vertical_condition i then ["Cheaper OTM Vertical (directional)"] else []) ++
        (if condor_condition i then ["Short-duration Iron Condor (range)"] else [])) := by
  by_cases hc1 : calendar_condition i <;> by_cases hc2 : vertical_condition i <;>
    by_cases hc3 : condor_condition i <;>
    simp [get_strategy_suggestions, hc1, hc2, hc3]

/-- Witness for C8: the concrete valid record fires the calendar rule only, and a
variant with IV rank 80% fires no rule and yields exactly the sentinel. -/
theorem get_strategy_suggestions_spec_witness :
    get_strategy_suggestions baseInputs = ["Double Calendar (front week vs back week)"] ∧
    get_strategy_suggestions { baseInputs with iv_rank_pct := 80 } =
      ["No trade â€” wait for better IV/term structure or re-center strikes"] := by
  constructor
  · have h := (get_strategy_suggestions_spec baseInputs).2.2
    have hc1 : calendar_condition baseInputs := by
      norm_num [calendar_condition, evaluate_status_lights, compute_metrics, baseInputs,
        traffic, List.lookup]
      decide
    have hc2 : ¬ vertical_condition baseInputs := by
      norm_num [vertical_condition, compute_metrics, baseInputs]
    have hc3 : ¬ condor_condition baseInputs := by
      norm_num [condor_condition, compute_metrics, baseInputs]
    rw [h (Or.inl hc1), if_pos hc1, if_neg hc2, if_neg hc3]
    simp
  · have h := (get_strategy_suggestions_spec { baseInputs with iv_rank_pct := 80 }).2.1
    refine h.mp ⟨?_, ?_, ?_⟩
    · norm_num [calendar_condition, evaluate_status_lights, compute_metrics, baseInputs,
        traffic, List.lookup]
      decide
    · norm_num [vertical_condition, evaluate_status_lights, compute_metrics, baseInputs,
        traffic, List.lookup]
    · norm_num [condor_condition, compute_metrics, baseInputs]

/-- The series→rank computation of `IBKRClient.get_iv_rank`'s primary path
(src/src/utils/ibkr_client.py lines 167-177): given the daily option-IV closes
(finite observations), requires at least 5 of them; with current = last observation,
lo = series minimum and hi = series maximum, when hi > lo it returns
(current − lo)/(hi − lo)·100 clamped to [0,100]; otherwise control falls through to
the fallback (modelled as `none` here). -/
def iv_rank_from_series (series : List ℚ) : Option ℚ :=
  if 5 ≤ series.length then
    match series.getLast?, series.min?, series.max? with
    | some cur, some lo, some hi =>
      if lo < hi then some (max 0 (min 100 ((cur - lo) / (hi - lo) * 100))) else none
    | _, _, _ => none
  else none

/-- The VIX-proxy fallback of `IBKRClient.get_iv_rank` (src/src/utils/ibkr_client.py
lines 185-196): the same clamped percentile-rank formula over the secondary source's
volatility-index daily closes (no minimum length beyond non-emptiness). -/
def vix_proxy_rank (closes : List ℚ) : Option ℚ :=
  match closes.getLast?, closes.min?, closes.max? with
  | some cur, some lo, some hi =>
    if lo < hi then some (max 0 (min 100 ((cur - lo) / (hi - lo) * 100))) else none
  | _, _, _ => none

/-- The clamp `max(0, min(100, x))` always lands in [0,100]. -/
lemma clamp_mem (x : ℚ) : 0 ≤ max 0 (min 100 x) ∧ max 0 (min 100 x) ≤ 100 :=
  ⟨le_max_left 0 _, max_le (by norm_num) (min_le_left 100 x)⟩

/-- C6: every rank that `get_iv_rank` computes — on the primary option-IV-history
path or on the VIX-proxy fallback — lies in [0,100], including when the current
value equals the series maximum or minimum. -/
theorem get_iv_rank_clamped (series closes : List ℚ) :
    (∀ r : ℚ, iv_rank_from_series series = some r → 0 ≤ r ∧ r ≤ 100) ∧
    (∀ r : ℚ, vix_proxy_rank closes = some r → 0 ≤ r ∧ r ≤ 100) := by
  constructor <;> intro r h
  · unfold iv_rank_from_series at h
    split at h
    · split at h
      · split at h
        · cases h
          exact clamp_mem _
        · cases h
      · cases h
    · cases h
  · unfold vix_proxy_rank at h
    split at h
    · split at h
      · cases h
        exact clamp_mem _
      · cases h
    · cases h

/-- Witness for C6: a five-point series whose current value equals the maximum ranks
exactly 100, and a proxy series whose current value equals the minimum ranks exactly
0; both are within [0,100] by the theorem. -/
theorem get_iv_rank_clamped_witness :
    iv_rank_from_series [10, 20, 30, 40, 50] = some 100 ∧
    vix_proxy_rank [30, 10] = some 0 ∧
    (0 ≤ (100 : ℚ) ∧ (100 : ℚ) ≤ 100) ∧ (0 ≤ (0 : ℚ) ∧ (0 : ℚ) ≤ 100) := by
  have h1 : iv_rank_from_series [10, 20, 30, 40, 50] = some 100 := by
    norm_num [iv_rank_from_series, List.min?, List.max?, List.getLast?,
      List.foldl, min_def, max_def]
  have h2 : vix_proxy_rank [30, 10] = some 0 := by
    norm_num [vix_proxy_rank, List.min?, List.max?, List.getLast?,
      List.foldl, min_def, max_def]
  exact ⟨h1, h2, (get_iv_rank_clamped [10, 20, 30, 40, 50] []).1 100 h1,
    (get_iv_rank_clamped [] [30, 10]).2 0 h2⟩

/-- Weekday of a proleptic-Gregorian ordinal, as Python's `date.weekday`
(Monday = 0, Friday = 4; ordinal 1, January 1 of year 1, was a Monday). -/
def py_weekday (d : ℤ) : ℤ := (d - 1) % 7

/-- Embeds `IBKRClient.nearest_two_fridays` (src/src/utils/ibkr_client.py lines
255-265), with dates as ordinals: `days_ahead = (4 - weekday) % 7`; the first date
is the reference itself when `days_ahead` is zero, else the reference plus
`days_ahead`; the second is seven days later. Python's `%` with a positive modulus
and Lean's `Int.emod` agree (both give a non-negative remainder). -/
def nearest_two_fridays (d : ℤ) : ℤ × ℤ :=
  let days_ahead := (4 - py_weekday d) % 7
  let first := if days_ahead = 0 then d else d + days_ahead
  (first, first + 7)

/-- C9: `nearest_two_fridays` is total pure date arithmetic: the first component is
a Friday, is on or after the reference date, is the least such Friday (equal to the
reference when it is itself a Friday), and the second component is exactly seven
days later. -/
theorem nearest_two_fridays_spec (d : ℤ) :
    py_weekday (nearest_two_fridays d).1 = 4 ∧
    d ≤ (nearest_two_fridays d).1 ∧
    (∀ e : ℤ, d ≤ e → py_weekday e = 4 → (nearest_two_fridays d).1 ≤ e) ∧
    (py_weekday d = 4 → (nearest_two_fridays d).1 = d) ∧
    (nearest_two_fridays d).2 = (nearest_two_fridays d).1 + 7 := by
  simp only [nearest_two_fridays, py_weekday]
  refine ⟨?_, ?_, ?_, ?_, ?_⟩
  · split <;> omega
  · split <;> omega
  · intro e he hf
    split <;> omega
  · intro hd
    split <;> omega
  · trivial

/-- Witness for C9: ordinal 12 (a Friday) maps to itself, and from ordinal 8
(a Monday) the first Friday found is minimal among Fridays on or after it. -/
theorem nearest_two_fridays_spec_witness :
    (nearest_two_fridays 12).1 = 12 ∧ (nearest_two_fridays 8).1 ≤ 12 :=
  ⟨(nearest_two_fridays_spec 12).2.2.2.1 (by decide),
   (nearest_two_fridays_spec 8).2.2.1 12 (by decide) (by decide)⟩

/-- A market-data ticker as delivered by the provider: optional last, bid, ask and
previous-close fields (absent or finite; rationals model only finite floats). -/
structure Ticker where
  last : Option ℚ
  bid : Option ℚ
  ask : Option ℚ
  close : Option ℚ
  deriving DecidableEq, Repr

/-- The external market environment visible to `IBKRClient.get_underlying_price`:
connection outcome, the live-mode and delayed-mode tickers, the close of the most
recent IBKR daily historical bar (none when no bars return), and the yfinance daily
close (none when the frame is empty). -/
structure MarketEnv where
  connected : Bool
  live : Ticker
  delayed : Ticker
  ibkr_daily_close : Option ℚ
  yf_daily_close : Option ℚ
  deriving DecidableEq, Repr

/-- Python truthiness of an optional float: None and 0.0 are falsy. -/
def truthy (o : Option ℚ) : Bool :=
  match o with
  | none => false
  | some x => decide (x ≠ 0)

/-- Python's `a or b` on optional floats: `b` when `a` is falsy, else `a`. -/
def py_or (a b : Option ℚ) : Option ℚ :=
  if truthy a then a else b

/-- The `_is_valid` check of src/src/utils/ibkr_client.py lines 211-212 (a present,
finite number); over rationals every present value is finite. -/
def is_valid_price (o : Option ℚ) : Bool :=
  o.isSome

/-- Embeds `IBKRClient.get_underlying_price` exactly as its body stands in the source
(src/src/utils/ibkr_client.py lines 96-98): the body is only the connectivity check
(`if not self.ensure_connected(): return None`); when connected, the body ends and
Python implicitly returns None. The price-retrieval tiers the spec attributes to this
function are not in its body (see `underlying_price_fallback_chain`). -/
def get_underlying_price (env : MarketEnv) : Option ℚ :=
  if !env.connected then none
  else none

/-- Embeds the stranded price-retrieval chain of src/src/utils/ibkr_client.py lines
200-253 — the code the spec's `get_underlying_price` description matches, which sits
after the unconditional `return None` of `get_iv_rank` (line 199) and is unreachable:
live tick via `last or mid or close` with Python truthiness (mid only when bid and ask
are present and ask > 0), else a delayed-mode retry (whose mid additionally needs bid
and ask truthy), else the last IBKR daily close, else the yfinance close, else None. -/
def underlying_price_fallback_chain (env : MarketEnv) : Option ℚ :=
  let t := env.live
  let mid : Option ℚ :=
    match t.bid, t.ask with
    | some b, some a => if 0 < a then some ((b + a) / 2) else none
    | _, _ => none
  let price0 := py_or (py_or t.last mid) t.close
  let price1 :=
    if is_valid_price price0 then price0
    else
      let t2 := env.delayed
      let mid2 : Option ℚ :=
        match t2.bid, t2.ask with
        | some b, some a => if b ≠ 0 ∧ a ≠ 0 ∧ 0 < a then some ((b + a) / 2) else none
        | _, _ => none
      let price2 := py_or (py_or t2.last mid2) t2.close
      if is_valid_price price2 then price2 else price0
  let price_h :=
    if is_valid_price price1 then price1
    else
      match env.ibkr_daily_close with
      | some c => some c
      | none => price1
  let price_y :=
    if is_valid_price price_h then price_h
    else
      match env.yf_daily_close with
      | some c => some c
      | none => price_h
  if is_valid_price price_y then price_y else none

/-- A connected environment in which every tier has a valid value, with a live last
tick of 635. -/
def connectedEnv : MarketEnv :=
  { connected := true
    live := { last := some 635, bid := some 634, ask := some 636, close := some 633 }
    delayed := { last := some 635, bid := some 634, ask := some 636, close := some 633 }
    ibkr_daily_close := some 632
    yf_daily_close := some 631 }

/-- C2 (code bug): `get_underlying_price` returns none for every environment — even
a connected one whose live last tick is valid — because its body ends after the
connectivity check, while the tiered retrieval code the spec describes (stranded,
unreachable, after `get_iv_rank`'s `return None`) would have produced the live tick
on the same environment. -/
theorem get_underlying_price_dead_code :
    get_underlying_price connectedEnv = none ∧
    underlying_price_fallback_chain connectedEnv = some 635 ∧
    (∀ env : MarketEnv, get_underlying_price env = none) := by
  refine ⟨rfl, ?_, fun env => ?_⟩
  · norm_num [underlying_price_fallback_chain, connectedEnv, py_or, truthy, is_valid_price]
  · unfold get_underlying_price
    split <;> rfl

end DoubleExpiry
